import Mathlib

/-!
Shallow embedding of the render-state caching layer of
`src/SFML/Graphics/RenderTarget.cpp` and the sprite facade
`src/SFML/Graphics/Sprite.cpp`.

Floating-point scalars are modelled as rationals; machine integers as `ℤ`/`ℕ`.
GPU calls are recorded as an explicit event trace; the process-wide
`RenderTarget::s_cache` is threaded explicitly as a `StatesCache` value.
-/

namespace SFML

/-- 2D float vector (`sf::Vector2f`), floats modelled as `ℚ`. -/
structure Vector2 where
  x : ℚ
  y : ℚ
  deriving DecidableEq, Repr

/-- 2D int vector (`sf::Vector2i`). -/
structure Vector2i where
  x : ℤ
  y : ℤ
  deriving DecidableEq, Repr

/-- RGBA color (`sf::Color`), four 8-bit channels modelled as `ℕ`. -/
structure Color where
  r : ℕ
  g : ℕ
  b : ℕ
  a : ℕ
  deriving DecidableEq, Repr

/-- `sf::Color::White` = (255, 255, 255, 255). -/
def Color.White : Color := ⟨255, 255, 255, 255⟩

/-- Float rectangle (`sf::FloatRect`). -/
structure FloatRect where
  left : ℚ
  top : ℚ
  width : ℚ
  height : ℚ
  deriving DecidableEq, Repr

/-- Int rectangle (`sf::IntRect`). -/
structure IntRect where
  left : ℤ
  top : ℤ
  width : ℤ
  height : ℤ
  deriving DecidableEq, Repr

/-- `sf::Vertex`: position, color, texture coordinates. -/
structure Vertex where
  position : Vector2
  color : Color
  texCoords : Vector2
  deriving DecidableEq, Repr

/-- Modelled from the spec: `sf::Transform` (class not under `src/`) is a
3×3 affine matrix for 2D; row-major entries `aij`. -/
structure Transform where
  a00 : ℚ
  a01 : ℚ
  a02 : ℚ
  a10 : ℚ
  a11 : ℚ
  a12 : ℚ
  a20 : ℚ
  a21 : ℚ
  a22 : ℚ
  deriving DecidableEq, Repr

/-- `sf::Transform::Identity`. -/
def Transform.Identity : Transform := ⟨1, 0, 0, 0, 1, 0, 0, 0, 1⟩

/-- Modelled from the spec: `Transform::transformPoint` applies the affine
matrix to a 2D point (the third row is ignored, as in the source library). -/
def Transform.transformPoint (t : Transform) (p : Vector2) : Vector2 :=
  ⟨t.a00 * p.x + t.a01 * p.y + t.a02, t.a10 * p.x + t.a11 * p.y + t.a12⟩

/-- Modelled from the spec: `Transform::combine` / `operator*`, the full
3×3 matrix product. -/
def Transform.mul (a b : Transform) : Transform :=
  ⟨a.a00 * b.a00 + a.a01 * b.a10 + a.a02 * b.a20,
   a.a00 * b.a01 + a.a01 * b.a11 + a.a02 * b.a21,
   a.a00 * b.a02 + a.a01 * b.a12 + a.a02 * b.a22,
   a.a10 * b.a00 + a.a11 * b.a10 + a.a12 * b.a20,
   a.a10 * b.a01 + a.a11 * b.a11 + a.a12 * b.a21,
   a.a10 * b.a02 + a.a11 * b.a12 + a.a12 * b.a22,
   a.a20 * b.a00 + a.a21 * b.a10 + a.a22 * b.a20,
   a.a20 * b.a01 + a.a21 * b.a11 + a.a22 * b.a21,
   a.a20 * b.a02 + a.a21 * b.a12 + a.a22 * b.a22⟩

/-- 3×3 determinant of a transform. -/
def Transform.det (t : Transform) : ℚ :=
  t.a00 * (t.a11 * t.a22 - t.a12 * t.a21)
  - t.a01 * (t.a10 * t.a22 - t.a12 * t.a20)
  + t.a02 * (t.a10 * t.a21 - t.a11 * t.a20)

/-- Modelled from the spec: `Transform::getInverse`, adjugate over the
determinant, or the identity when the matrix is singular. -/
def Transform.getInverse (t : Transform) : Transform :=
  if t.det = 0 then Transform.Identity else
  ⟨ (t.a11 * t.a22 - t.a12 * t.a21) / t.det,
   -(t.a01 * t.a22 - t.a02 * t.a21) / t.det,
    (t.a01 * t.a12 - t.a02 * t.a11) / t.det,
   -(t.a10 * t.a22 - t.a12 * t.a20) / t.det,
    (t.a00 * t.a22 - t.a02 * t.a20) / t.det,
   -(t.a00 * t.a12 - t.a02 * t.a10) / t.det,
    (t.a10 * t.a21 - t.a11 * t.a20) / t.det,
   -(t.a00 * t.a21 - t.a01 * t.a20) / t.det,
    (t.a00 * t.a11 - t.a01 * t.a10) / t.det⟩

/-- C++ `static_cast<int>` on a float: truncation toward zero, computed as
truncating division of the rational's numerator by its denominator. -/
def truncQ (q : ℚ) : ℤ := q.num.tdiv q.den

/-- Modelled from the spec: `sf::View` (class not under `src/`) holds a
normalized viewport rectangle and derives a forward world→device transform;
`getInverseTransform` is that transform's inverse. -/
structure View where
  viewport : FloatRect
  transform : Transform
  deriving DecidableEq, Repr

/-- `View::getViewport`. -/
def View.getViewport (v : View) : FloatRect := v.viewport

/-- `View::getTransform`. -/
def View.getTransform (v : View) : Transform := v.transform

/-- `View::getInverseTransform`. -/
def View.getInverseTransform (v : View) : Transform := v.transform.getInverse

/-- The per-target data of `sf::RenderTarget` needed by the pure geometry
operations: `getSize()` result and the current/default views. -/
structure RenderTarget where
  size : ℕ × ℕ
  view : View
  defaultView : View
  deriving DecidableEq, Repr

/-- `RenderTarget::getSize` x component as a float. -/
def RenderTarget.widthF (rt : RenderTarget) : ℚ := (rt.size.1 : ℚ)

/-- `RenderTarget::getSize` y component as a float. -/
def RenderTarget.heightF (rt : RenderTarget) : ℚ := (rt.size.2 : ℚ)

/-- `RenderTarget::getViewport`: scales the view's normalized viewport
fractions by the target size, adds 0.5 and truncates to int. -/
def RenderTarget.getViewport (rt : RenderTarget) (view : View) : IntRect :=
  let width := rt.widthF
  let height := rt.heightF
  let viewport := view.getViewport
  ⟨truncQ (1/2 + width * viewport.left),
   truncQ (1/2 + height * viewport.top),
   truncQ (1/2 + width * viewport.width),
   truncQ (1/2 + height * viewport.height)⟩

/-- `RenderTarget::mapPixelToCoords(point, view)`: pixel → normalized device
coordinates (Y flipped) → inverse view transform. -/
def RenderTarget.mapPixelToCoords (rt : RenderTarget) (point : Vector2i) (view : View) : Vector2 :=
  let viewport := rt.getViewport view
  let normalized : Vector2 :=
    ⟨-1 + 2 * ((point.x - viewport.left : ℤ) : ℚ) / (viewport.width : ℚ),
      1 - 2 * ((point.y - viewport.top : ℤ) : ℚ) / (viewport.height : ℚ)⟩
  view.getInverseTransform.transformPoint normalized

/-- `RenderTarget::mapCoordsToPixel(point, view)`: forward view transform →
viewport pixel coordinates (Y flipped), truncated to int. -/
def RenderTarget.mapCoordsToPixel (rt : RenderTarget) (point : Vector2) (view : View) : Vector2i :=
  let normalized := view.getTransform.transformPoint point
  let viewport := rt.getViewport view
  ⟨truncQ ((normalized.x + 1) / 2 * (viewport.width : ℚ) + (viewport.left : ℚ)),
   truncQ ((-normalized.y + 1) / 2 * (viewport.height : ℚ) + (viewport.top : ℚ))⟩

/-- `sf::BlendMode::Factor`. -/
inductive BlendFactor where
  | Zero | One | SrcColor | OneMinusSrcColor | DstColor | OneMinusDstColor
  | SrcAlpha | OneMinusSrcAlpha | DstAlpha | OneMinusDstAlpha
  deriving DecidableEq, Repr

/-- `sf::BlendMode::Equation`. -/
inductive BlendEquation where
  | Add | Subtract | ReverseSubtract
  deriving DecidableEq, Repr

/-- `sf::BlendMode`: 4 factors and 2 equations, separate for color/alpha. -/
structure BlendMode where
  colorSrcFactor : BlendFactor
  colorDstFactor : BlendFactor
  colorEquation : BlendEquation
  alphaSrcFactor : BlendFactor
  alphaDstFactor : BlendFactor
  alphaEquation : BlendEquation
  deriving DecidableEq, Repr

/-- Modelled from the spec: `sf::BlendAlpha` (alpha blending), the default
blend mode re-applied by `resetGLStates`. -/
def BlendMode.blendAlpha : BlendMode :=
  ⟨.SrcAlpha, .OneMinusSrcAlpha, .Add, .One, .OneMinusSrcAlpha, .Add⟩

/-- The texture data consumed by this layer (`sf::Texture` is an external
collaborator): stable cache identity `m_cacheId`, the flag
`m_fboAttachment`, pixel size, padded storage size, flipped-origin flag. -/
structure Texture where
  cacheId : ℕ
  fboAttachment : Bool
  size : ℕ × ℕ
  actualSize : ℕ × ℕ
  pixelsFlipped : Bool
  deriving DecidableEq, Repr

/-- The shader data consumed by this layer (`sf::Shader` is an external
collaborator): native program handle and color-uniform location. -/
structure Shader where
  nativeHandle : ℕ
  colorLocation : ℤ
  deriving DecidableEq, Repr

/-- `sf::Shader::DefaultShaderType`. -/
inductive DefaultShaderType where
  | Untextured | Textured
  deriving DecidableEq, Repr

/-- `sf::RenderStates`: the per-draw render state descriptor. References are
modelled as options; the texture-coordinate transform pointer as
`Option Transform`. -/
structure RenderStates where
  transform : Transform
  textureTransform : Option Transform
  blendMode : BlendMode
  texture : Option Texture
  shader : Option Shader
  color : Color
  useColor : Bool
  useVBO : Bool
  deriving DecidableEq, Repr

/-- Modelled from the spec: the default-constructed `RenderStates()` —
identity transform, no texture transform, alpha blending, no texture,
no shader, opaque white tint with the explicit-color flag clear, and the
static-buffer path not selected. -/
def RenderStates.default : RenderStates :=
  ⟨Transform.Identity, none, BlendMode.blendAlpha, none, none, Color.White, false, false⟩

/-- `RenderTarget::StatesCache::VertexCacheSize`. Modelled from the spec:
the scratch cache holds one textured quad (4 vertices). -/
def VertexCacheSize : ℕ := 4

/-- `RenderTarget::StatesCache` — the process-wide shadow of the last
applied GPU state (`s_cache`). The scratch array `vertexCache` is a list
whose first entries are overwritten by the fast path. -/
structure StatesCache where
  glStatesSet : Bool
  viewChanged : Bool
  lastBlendMode : BlendMode
  lastTextureId : ℕ
  lastProgram : ℕ
  lastProgramBoundTextures : Bool
  lastColor : Color
  vertexCache : List Vertex
  useVertexCache : Bool
  lastUsedVBO : Bool
  deriving DecidableEq, Repr

/-- The GPU/GL environment: whether `activate(true)` succeeds, whether
shaders are available, and the default shaders
(`Shader::getDefaultShader`) with the default texture uniform location. -/
structure Env where
  activateOk : Bool
  shaderAvailable : Bool
  defaultUntexturedShader : Shader
  defaultTexturedShader : Shader
  defaultTextureUniformLocation : ℤ
  deriving DecidableEq, Repr

/-- `Shader::getDefaultShader(type)`. -/
def Env.getDefaultShader (env : Env) : DefaultShaderType → Shader
  | .Untextured => env.defaultUntexturedShader
  | .Textured => env.defaultTexturedShader

/-- `sf::PrimitiveType`. -/
inductive PrimitiveType where
  | Points | Lines | LinesStrip | Triangles | TrianglesStrip | TrianglesFan | Quads
  deriving DecidableEq, Repr

/-- Trace of the GPU-visible calls issued by this layer. Each `apply*`
constructor marks one execution of the corresponding `RenderTarget`
member function; the remaining constructors are the direct GL calls. -/
inductive GLEvent where
  | structuralDefaults
  | applyBlendModeCall (mode : BlendMode)
  | applyTransformCall (t : Transform)
  | applyCurrentViewCall
  | applyTextureCall (states : RenderStates)
  | applyShaderCall (shader : Option Shader)
  | setUniformTex (location : ℤ)
  | setColorUniform (location : ℤ) (color : Color)
  | unbindBuffers
  | bindSpriteBuffers
  | setVertexPointers (data : List Vertex)
  | drawElementsCall
  | drawArraysCall (type : PrimitiveType) (count : ℕ)
  | clearCall (color : Color)
  deriving DecidableEq, Repr

/-- `RenderTarget::applyBlendMode`: issues the blend calls and always
records its argument as the cached last blend mode. -/
def applyBlendMode (cache : StatesCache) (mode : BlendMode) : StatesCache × List GLEvent :=
  ({ cache with lastBlendMode := mode }, [.applyBlendModeCall mode])

/-- `RenderTarget::applyTexture`: binds (or unbinds) the descriptor's
texture and records the stable cache id (0 when no texture). -/
def applyTexture (cache : StatesCache) (states : RenderStates) : StatesCache × List GLEvent :=
  ({ cache with lastTextureId := (states.texture.map Texture.cacheId).getD 0 },
   [.applyTextureCall states])

/-- `RenderTarget::applyShader`: binds the shader (or none) and records the
native handle and whether textures are bound under it. -/
def applyShader (cache : StatesCache) (shader : Option Shader) : StatesCache × List GLEvent :=
  ({ cache with lastProgram := (shader.map Shader.nativeHandle).getD 0,
                lastProgramBoundTextures := shader.isSome },
   [.applyShaderCall shader])

/-- `RenderTarget::applyCurrentView`: programs viewport and projection and
clears the view-changed flag. -/
def applyCurrentView (cache : StatesCache) : StatesCache × List GLEvent :=
  ({ cache with viewChanged := false }, [.applyCurrentViewCall])

/-- `RenderTarget::resetGLStates(applyOnly)`: re-establishes the GL
baseline (unless `applyOnly`) and re-applies every cacheable dimension.
`setView(getView())` at the end only marks the view as changed. -/
def resetGLStates (env : Env) (cache : StatesCache) (applyOnly : Bool) : StatesCache × List GLEvent :=
  let shaderAvailable := env.shaderAvailable
  if env.activateOk then
    let r1 :=
      if !applyOnly then ({ cache with glStatesSet := true }, [GLEvent.structuralDefaults])
      else (cache, ([] : List GLEvent))
    let r2 := applyBlendMode r1.1 BlendMode.blendAlpha
    let e3 := [GLEvent.applyTransformCall Transform.Identity]
    let r4 := applyTexture r2.1 RenderStates.default
    let r5 := if shaderAvailable then applyShader r4.1 none else (r4.1, ([] : List GLEvent))
    let r6 :=
      if !applyOnly then
        ({ r5.1 with useVertexCache := false, lastUsedVBO := false, viewChanged := true },
         [GLEvent.unbindBuffers])
      else (r5.1, ([] : List GLEvent))
    (r6.1, r1.2 ++ r2.2 ++ e3 ++ r4.2 ++ r5.2 ++ r6.2)
  else (cache, [])

/-- The pre-transform loop of the vertex-cache fast path: position is
multiplied by the descriptor's transform, color and texture coordinates
are copied unchanged. -/
def pretransform (t : Transform) (vertices : List Vertex) : List Vertex :=
  vertices.map fun v => ⟨t.transformPoint v.position, v.color, v.texCoords⟩

/-- The texture identity used by the draw dispatch:
`states.texture ? states.texture->m_cacheId : 0`. -/
def textureIdOf (texture : Option Texture) : ℕ := (texture.map Texture.cacheId).getD 0

/-- Whether the descriptor's texture is an offscreen render target's
attachment (`states.texture && states.texture->m_fboAttachment`). -/
def fboTexture : Option Texture → Bool
  | some t => t.fboAttachment
  | none => false

/-- `RenderTarget::clear(color)`: only proceeds when activation succeeds;
unbinds any texture, then issues the color clear. -/
def RenderTarget.clear (env : Env) (cache : StatesCache) (color : Color) : StatesCache × List GLEvent :=
  if env.activateOk then
    let r1 := applyTexture cache RenderStates.default
    (r1.1, r1.2 ++ [GLEvent.clearCall color])
  else (cache, [])

/-- Whether a draw call uses the vertex-cache fast path:
`(vertexCount <= StatesCache::VertexCacheSize) && !states.useVBO`. -/
def useVertexCacheFlag (vertices : List Vertex) (states : RenderStates) : Bool :=
  decide (vertices.length ≤ VertexCacheSize) && !states.useVBO

/-- First-draw baseline establishment: `if (!s_cache.glStatesSet) resetGLStates()`. -/
def ensureGlStates (env : Env) (cache : StatesCache) : StatesCache × List GLEvent :=
  if !cache.glStatesSet then resetGLStates env cache false else (cache, [])

/-- The vertex-cache fast-path decision of the draw dispatch: pre-transform
the vertices into the scratch cache and load the identity transform (once),
or load the descriptor's transform via `applyTransform`. -/
def geometryStep (cache : StatesCache) (states : RenderStates) (vertices : List Vertex) :
    StatesCache × List GLEvent :=
  if useVertexCacheFlag vertices states then
    let c := { cache with
      vertexCache := pretransform states.transform vertices ++ cache.vertexCache.drop vertices.length }
    if !cache.useVertexCache then (c, [GLEvent.applyTransformCall Transform.Identity]) else (c, [])
  else (cache, [GLEvent.applyTransformCall states.transform])

/-- `if (s_cache.viewChanged) applyCurrentView()`. -/
def viewStep (cache : StatesCache) : StatesCache × List GLEvent :=
  if cache.viewChanged then applyCurrentView cache else (cache, [])

/-- `if (states.blendMode != s_cache.lastBlendMode) applyBlendMode(...)`. -/
def blendStep (cache : StatesCache) (states : RenderStates) : StatesCache × List GLEvent :=
  if states.blendMode ≠ cache.lastBlendMode then applyBlendMode cache states.blendMode
  else (cache, [])

/-- The shader selected by the generic path: the descriptor's shader if
present, else the default keyed by texture presence. -/
def resolveShader (env : Env) (states : RenderStates) : Shader :=
  states.shader.getD
    (env.getDefaultShader
      (if states.texture = none then DefaultShaderType.Untextured else DefaultShaderType.Textured))

/-- The generic path's texture-sampler uniform setup on the default
textured shader (when no explicit shader was supplied). -/
def defaultShaderUniformEvents (env : Env) (states : RenderStates) : List GLEvent :=
  if states.shader = none ∧
      (if states.texture = none then DefaultShaderType.Untextured else DefaultShaderType.Textured)
        = DefaultShaderType.Textured then
    [GLEvent.setUniformTex env.defaultTextureUniformLocation]
  else []

/-- `if (textureId != s_cache.lastTextureId || states.textureTransform != NULL)
applyTexture(states)`. -/
def textureStep (cache : StatesCache) (states : RenderStates) : StatesCache × List GLEvent :=
  if textureIdOf states.texture ≠ cache.lastTextureId ∨ states.textureTransform ≠ none then
    applyTexture cache states
  else (cache, [])

/-- `setColour`: the shader must be set up again if its program changed or
the previous program had no textures bound. -/
def setColourFlag (cache : StatesCache) (shader : Shader) : Bool :=
  decide (shader.nativeHandle ≠ cache.lastProgram) || !cache.lastProgramBoundTextures

/-- Conditional shader rebind of the generic path. -/
def shaderApplyStep (cache : StatesCache) (shader : Shader) (setColour : Bool) :
    StatesCache × List GLEvent :=
  if setColour then applyShader cache (some shader) else (cache, [])

/-- The generic path's color application: re-upload the tint uniform only
when the resolved color differs from the cached one or `setColour` forced
it. -/
def colorStep (cache : StatesCache) (shader : Shader) (states : RenderStates) (setColour : Bool) :
    StatesCache × List GLEvent :=
  let color := if states.useColor then states.color else Color.White
  if decide (color ≠ cache.lastColor) || setColour then
    ({ cache with lastColor := color }, [GLEvent.setColorUniform shader.colorLocation color])
  else (cache, [])

/-- The advanced path's color application: the tint uniform is re-uploaded
unconditionally (the cached-color check is commented out in the source). -/
def colorStepAdvanced (cache : StatesCache) (sh : Shader) (states : RenderStates) :
    StatesCache × List GLEvent :=
  let color := if states.useColor then states.color else Color.White
  ({ cache with lastColor := color }, [GLEvent.setColorUniform sh.colorLocation color])

/-- The buffer-binding transition and the rasterization call: resolve the
vertex source (scratch cache, caller array, or no new pointers), unbind or
bind the static sprite buffers, set attribute pointers, and issue the
indexed (VBO) or non-indexed draw; records `lastUsedVBO`. The emitted list
always ends with the rasterization event. -/
def bufferStep (cache : StatesCache) (states : RenderStates) (vertices : List Vertex)
    (type : PrimitiveType) : StatesCache × List GLEvent :=
  let verticesOpt : Option (List Vertex) :=
    if useVertexCacheFlag vertices states then
      if !cache.useVertexCache then some cache.vertexCache else none
    else some vertices
  let e9 := if cache.lastUsedVBO && !states.useVBO then [GLEvent.unbindBuffers] else []
  let e10 :=
    if states.useVBO then
      (if !cache.lastUsedVBO then [GLEvent.bindSpriteBuffers] else []) ++ [GLEvent.drawElementsCall]
    else
      (match verticesOpt with
       | some vs => [GLEvent.setVertexPointers vs]
       | none => []) ++ [GLEvent.drawArraysCall type vertices.length]
  ({ cache with lastUsedVBO := states.useVBO }, e9 ++ e10)

/-- The off-screen texture workaround: if the texture drawn with is an FBO
attachment, forcibly unbind textures right after the draw. -/
def fboStep (cache : StatesCache) (states : RenderStates) : StatesCache × List GLEvent :=
  if fboTexture states.texture then applyTexture cache RenderStates.default else (cache, [])

/-- `RenderTarget::draw(vertices, vertexCount, type, states)` — the generic
entry point, guarded by `activate(true)`. Returns the updated shared cache
and the trace of issued calls. -/
def RenderTarget.draw (env : Env) (rt : RenderTarget) (cache : StatesCache)
    (vertices : List Vertex) (type : PrimitiveType) (states : RenderStates) :
    StatesCache × List GLEvent :=
  if vertices = [] then (cache, []) else
  if env.activateOk then
    let r1 := ensureGlStates env cache
    let r2 := geometryStep r1.1 states vertices
    let r3 := viewStep r2.1
    let r4 := blendStep r3.1 states
    let shader := resolveShader env states
    let e5 := defaultShaderUniformEvents env states
    let r6 := textureStep r4.1 states
    let setColour := setColourFlag r6.1 shader
    let r7 := shaderApplyStep r6.1 shader setColour
    let r8 := colorStep r7.1 shader states setColour
    let r9 := bufferStep r8.1 states vertices type
    let r10 := fboStep r9.1 states
    ({ r10.1 with useVertexCache := useVertexCacheFlag vertices states },
     r1.2 ++ r2.2 ++ r3.2 ++ r4.2 ++ e5 ++ r6.2 ++ r7.2 ++ r8.2 ++ r9.2 ++ r10.2)
  else (cache, [])

/-- `RenderTarget::drawAdvanced(vertices, vertexCount, type, states)` — the
shader-mandatory entry point. There is no `activate` guard (only the inner
`resetGLStates` checks activation); `assert(states.shader != NULL)` and the
subsequent dereference of the shader are modelled by returning `none` when
no shader is supplied; there is no shader resolution/rebind step and the
tint color uniform is set unconditionally. -/
def RenderTarget.drawAdvanced (env : Env) (rt : RenderTarget) (cache : StatesCache)
    (vertices : List Vertex) (type : PrimitiveType) (states : RenderStates) :
    Option (StatesCache × List GLEvent) :=
  if vertices = [] then some (cache, []) else
  match states.shader with
  | none => none
  | some sh =>
    let r1 := ensureGlStates env cache
    let r2 := geometryStep r1.1 states vertices
    let r3 := viewStep r2.1
    let r4 := blendStep r3.1 states
    let r6 := textureStep r4.1 states
    let r8 := colorStepAdvanced r6.1 sh states
    let r9 := bufferStep r8.1 states vertices type
    let r10 := fboStep r9.1 states
    some ({ r10.1 with useVertexCache := useVertexCacheFlag vertices states },
      r1.2 ++ r2.2 ++ r3.2 ++ r4.2 ++ r6.2 ++ r8.2 ++ r9.2 ++ r10.2)

/-- `sf::Sprite` (from `Sprite.cpp`, with `TRANSFORM_VERTS` not defined):
texture pointer, texture rectangle, tint color, the 4 quad vertices, the
vertex and texture-coordinate transforms, plus the `Transformable` base
transform (`getTransform()`, modelled as a stored matrix since the base
class is an external collaborator). -/
structure Sprite where
  texture : Option Texture
  textureRect : IntRect
  color : Color
  v0 : Vertex
  v1 : Vertex
  v2 : Vertex
  v3 : Vertex
  transformable : Transform
  vertexTransform : Transform
  textureTransform : Transform
  deriving DecidableEq, Repr

/-- A default `sf::Vertex`: origin position, opaque white, zero texture
coordinates (modelled from the spec's collaborator conventions). -/
def Vertex.default : Vertex := ⟨⟨0, 0⟩, Color.White, ⟨0, 0⟩⟩

/-- The default-constructed `Sprite()`: no texture, empty rectangle, white
tint, default vertices and identity transforms. -/
def Sprite.init : Sprite :=
  ⟨none, ⟨0, 0, 0, 0⟩, Color.White, Vertex.default, Vertex.default, Vertex.default,
   Vertex.default, Transform.Identity, Transform.Identity, Transform.Identity⟩

/-- `Sprite::getLocalBounds`. -/
def Sprite.getLocalBounds (s : Sprite) : FloatRect :=
  ⟨0, 0, ((|s.textureRect.width|  : ℤ) : ℚ), ((|s.textureRect.height| : ℤ) : ℚ)⟩

/-- `Sprite::updatePositions` (non-`TRANSFORM_VERTS` branch): unit-quad
vertex positions plus a vertex transform scaling by the local bounds. -/
def Sprite.updatePositions (s : Sprite) : Sprite :=
  let bounds := s.getLocalBounds
  { s with
    v0 := { s.v0 with position := ⟨0, 0⟩ },
    v1 := { s.v1 with position := ⟨0, 1⟩ },
    v2 := { s.v2 with position := ⟨1, 0⟩ },
    v3 := { s.v3 with position := ⟨1, 1⟩ },
    vertexTransform := ⟨bounds.width, 0, 0, 0, bounds.height, 0, 0, 0, 1⟩ }

/-- `Sprite::updateTexCoords` (non-`TRANSFORM_VERTS` branch): unit-quad
texture coordinates plus a texture-coordinate transform built from the
texture's actual storage size, adjusted when the texture is flipped.
Dereferences `m_texture`, so it is undefined (`none`) without a texture. -/
def Sprite.updateTexCoords (s : Sprite) : Option Sprite :=
  match s.texture with
  | none => none
  | some tex =>
    let left : ℚ := (s.textureRect.left : ℚ)
    let right : ℚ := left + (s.textureRect.width : ℚ)
    let top : ℚ := (s.textureRect.top : ℚ)
    let bottom : ℚ := top + (s.textureRect.height : ℚ)
    let xscale : ℚ := (right - left) / (tex.actualSize.1 : ℚ)
    let yscale : ℚ := (bottom - top) / (tex.actualSize.2 : ℚ)
    let xorigin : ℚ := left / (tex.actualSize.1 : ℚ)
    let yorigin : ℚ := top / (tex.actualSize.2 : ℚ)
    let yscale' := if tex.pixelsFlipped then yscale * (-1) else yscale
    let yorigin' := if tex.pixelsFlipped then yorigin + (tex.size.2 : ℚ) / (tex.actualSize.2 : ℚ)
                    else yorigin
    some { s with
      v0 := { s.v0 with texCoords := ⟨0, 0⟩ },
      v1 := { s.v1 with texCoords := ⟨0, 1⟩ },
      v2 := { s.v2 with texCoords := ⟨1, 0⟩ },
      v3 := { s.v3 with texCoords := ⟨1, 1⟩ },
      textureTransform := ⟨xscale, 0, xorigin, 0, yscale', yorigin', 0, 0, 1⟩ }

/-- `Sprite::setTextureRect`: on a change, stores the rectangle and updates
positions and texture coordinates. -/
def Sprite.setTextureRect (s : Sprite) (rectangle : IntRect) : Option Sprite :=
  if rectangle ≠ s.textureRect then
    ({ s with textureRect := rectangle }).updatePositions.updateTexCoords
  else some s

/-- `Sprite::setTexture(texture, resetRect)`. -/
def Sprite.setTexture (s : Sprite) (texture : Texture) (resetRect : Bool) : Option Sprite :=
  let oldTexture := s.texture
  let s' := { s with texture := some texture }
  if resetRect || (decide (oldTexture = none) && decide (s.textureRect = (⟨0, 0, 0, 0⟩ : IntRect))) then
    s'.setTextureRect ⟨0, 0, (texture.size.1 : ℤ), (texture.size.2 : ℤ)⟩
  else some s'

/-- `Sprite::setColor`: vertices are always white; the tint is stored in
`m_color` only. -/
def Sprite.setColor (s : Sprite) (color : Color) : Sprite :=
  { s with
    v0 := { s.v0 with color := Color.White },
    v1 := { s.v1 with color := Color.White },
    v2 := { s.v2 with color := Color.White },
    v3 := { s.v3 with color := Color.White },
    color := color }

/-- `Sprite::getColor` (non-`TRANSFORM_VERTS` branch): returns `m_color`. -/
def Sprite.getColor (s : Sprite) : Color := s.color

/-- `Sprite::draw`: builds the render-state descriptor (combined transform,
texture transform, tint color with the explicit-color flag, static-buffer
path) and hands the 4 vertices to `RenderTarget::draw`; a complete no-op
without a texture. -/
def Sprite.draw (s : Sprite) (env : Env) (rt : RenderTarget) (cache : StatesCache)
    (states : RenderStates) : StatesCache × List GLEvent :=
  match s.texture with
  | none => (cache, [])
  | some tex =>
    let states' := { states with
      transform := states.transform.mul (s.transformable.mul s.vertexTransform),
      textureTransform := some s.textureTransform,
      color := s.color,
      useColor := true,
      useVBO := true,
      texture := some tex }
    RenderTarget.draw env rt cache [s.v0, s.v1, s.v2, s.v3] PrimitiveType.TrianglesStrip states'

/-- `Sprite::drawAdvanced`: same descriptor construction, but dispatching
to `RenderTarget::drawAdvanced`; a complete no-op without a texture. -/
def Sprite.drawAdvanced (s : Sprite) (env : Env) (rt : RenderTarget) (cache : StatesCache)
    (states : RenderStates) : Option (StatesCache × List GLEvent) :=
  match s.texture with
  | none => some (cache, [])
  | some tex =>
    let states' := { states with
      transform := states.transform.mul (s.transformable.mul s.vertexTransform),
      textureTransform := some s.textureTransform,
      color := s.color,
      useColor := true,
      useVBO := true,
      texture := some tex }
    RenderTarget.drawAdvanced env rt cache [s.v0, s.v1, s.v2, s.v3] PrimitiveType.TrianglesStrip states'

/-- A sprite mutation from the set {`setColor`, `setTexture`,
`setTextureRect`}. -/
inductive SpriteOp where
  | setColor (c : Color)
  | setTexture (t : Texture) (resetRect : Bool)
  | setTextureRect (r : IntRect)
  deriving DecidableEq, Repr

/-- Apply one sprite mutation (`none` when the call is undefined). -/
def Sprite.applyOp (s : Sprite) : SpriteOp → Option Sprite
  | .setColor c => some (s.setColor c)
  | .setTexture t r => s.setTexture t r
  | .setTextureRect r => s.setTextureRect r

/-- Apply a sequence of sprite mutations. -/
def Sprite.applyOps (s : Sprite) : List SpriteOp → Option Sprite
  | [] => some s
  | op :: ops => (s.applyOp op).bind fun s' => s'.applyOps ops

/-- All four quad vertices carry opaque white. -/
def Sprite.verticesWhite (s : Sprite) : Prop :=
  s.v0.color = Color.White ∧ s.v1.color = Color.White ∧
  s.v2.color = Color.White ∧ s.v3.color = Color.White

instance (s : Sprite) : Decidable s.verticesWhite := by
  unfold Sprite.verticesWhite; infer_instance

/-! ## Concrete fixtures used by witnesses and counterexamples -/

/-- An 800×600 target whose views use the identity transform and the full
viewport. -/
def rtW : RenderTarget :=
  ⟨(800, 600), ⟨⟨0, 0, 1, 1⟩, Transform.Identity⟩, ⟨⟨0, 0, 1, 1⟩, Transform.Identity⟩⟩

/-- A full-viewport identity view. -/
def viewW : View := ⟨⟨0, 0, 1, 1⟩, Transform.Identity⟩

/-- A concrete shader. -/
def shW : Shader := ⟨3, 11⟩

/-- A working GL environment (activation succeeds). -/
def envW : Env := ⟨true, true, ⟨1, 5⟩, ⟨2, 6⟩, 7⟩

/-- An environment whose activation fails. -/
def envFail : Env := ⟨false, true, ⟨1, 5⟩, ⟨2, 6⟩, 7⟩

/-- A baseline cache state: GL states established, view clean, alpha
blending, nothing bound. -/
def cacheW : StatesCache :=
  ⟨true, false, BlendMode.blendAlpha, 0, 0, false, Color.White,
   [Vertex.default, Vertex.default, Vertex.default, Vertex.default], false, false⟩

/-- A concrete vertex. -/
def vtxW : Vertex := ⟨⟨2, 3⟩, ⟨10, 20, 30, 40⟩, ⟨5, 6⟩⟩

/-- A concrete texture. -/
def texW : Texture := ⟨42, false, (32, 32), (32, 32), false⟩

/-- A concrete texture flagged as an offscreen render target attachment. -/
def texFboW : Texture := ⟨43, true, (32, 32), (32, 32), false⟩

/-- Whether an event is an execution of `applyBlendMode`. -/
def isBlendApply : GLEvent → Bool
  | .applyBlendModeCall _ => true
  | _ => false

/-- Number of `applyBlendMode` executions in a trace. -/
def countBlend (evs : List GLEvent) : ℕ := (evs.filter isBlendApply).length

/-! ## Helper lemmas about truncation and transforms -/

theorem truncQ_of_nonneg (q : ℚ) (h : 0 ≤ q) : truncQ q = ⌊q⌋ := by
  rw [truncQ, Rat.floor_def, Int.tdiv_eq_ediv (Rat.num_nonneg.mpr h) (by positivity)]

theorem truncQ_of_neg (q : ℚ) (h : q < 0) : truncQ q = ⌈q⌉ := by
  have h1 : (-q).num.tdiv (-q).den = ⌊-q⌋ := by
    rw [Rat.floor_def, Int.tdiv_eq_ediv (Rat.num_nonneg.mpr (by linarith)) (by positivity)]
  rw [Rat.neg_num, Rat.neg_den, Int.neg_tdiv, Int.floor_neg] at h1
  rw [truncQ]; omega

theorem abs_sub_truncQ_lt_one (q : ℚ) : |q - (truncQ q : ℚ)| < 1 := by
  rcases le_or_lt 0 q with h | h
  · rw [truncQ_of_nonneg q h, abs_lt]
    constructor
    · have := Int.floor_le q; linarith
    · have := Int.lt_floor_add_one q; linarith
  · rw [truncQ_of_neg q h, abs_lt]
    constructor
    · have := Int.ceil_lt_add_one q; linarith
    · have := Int.le_ceil q; linarith

theorem truncQ_half_add (x : ℚ) (h : 0 ≤ x) : truncQ (1/2 + x) = round x := by
  rw [truncQ_of_nonneg _ (by linarith), round_eq, add_comm]

theorem truncQ_concrete {q : ℚ} {n : ℤ} (h3 : 0 ≤ q) (h1 : (n : ℚ) ≤ q) (h2 : q < n + 1) :
    truncQ q = n := by
  rw [truncQ_of_nonneg _ h3]
  exact Int.floor_eq_iff.mpr ⟨h1, h2⟩

/-- Composing the adjugate inverse with the forward transform on a point is
the identity, and a perturbation of the image is pulled back through the
linear part of the inverse (affine transforms, nonzero determinant). -/
theorem getInverse_transformPoint_affine (A : Transform) (h20 : A.a20 = 0) (h21 : A.a21 = 0)
    (h22 : A.a22 = 1) (hdet : A.det ≠ 0) (p δ : Vector2) :
    A.getInverse.transformPoint ⟨(A.transformPoint p).x + δ.x, (A.transformPoint p).y + δ.y⟩ =
      ⟨p.x + (A.getInverse.a00 * δ.x + A.getInverse.a01 * δ.y),
       p.y + (A.getInverse.a10 * δ.x + A.getInverse.a11 * δ.y)⟩ := by
  obtain ⟨a00, a01, a02, a10, a11, a12, a20, a21, a22⟩ := A
  simp only at h20 h21 h22
  subst h20 h21 h22
  have hdet_eq : Transform.det ⟨a00, a01, a02, a10, a11, a12, 0, 0, 1⟩ = a00 * a11 - a01 * a10 := by
    simp only [Transform.det]; ring
  rw [hdet_eq] at hdet
  rw [Transform.getInverse, hdet_eq, if_neg hdet]
  simp only [Transform.transformPoint, Vector2.mk.injEq]
  constructor <;> field_simp <;> ring

/-! ## C7: viewport rounding -/

/-- C7: `getViewport` maps normalized viewport fractions to pixels by
multiplying by the target dimension, adding 0.5 and truncating; whenever the
products are nonnegative this is round-half-up (`round`), and on an 800×600
target the fractions (0,0,1,1) give exactly (0,0,800,600) while
(0.25,0.25,0.5,0.5) give exactly (200,150,400,300). -/
theorem getViewport_rounds_half_up (rt : RenderTarget) (view view' : View)
    (hsize : rt.size = (800, 600))
    (hvp : view.viewport = ⟨0, 0, 1, 1⟩)
    (hvp' : view'.viewport = ⟨1/4, 1/4, 1/2, 1/2⟩) :
    (∀ (rt2 : RenderTarget) (v : View),
      0 ≤ rt2.widthF * v.viewport.left → 0 ≤ rt2.heightF * v.viewport.top →
      0 ≤ rt2.widthF * v.viewport.width → 0 ≤ rt2.heightF * v.viewport.height →
      rt2.getViewport v =
        ⟨round (rt2.widthF * v.viewport.left), round (rt2.heightF * v.viewport.top),
         round (rt2.widthF * v.viewport.width), round (rt2.heightF * v.viewport.height)⟩) ∧
    rt.getViewport view = ⟨0, 0, 800, 600⟩ ∧
    rt.getViewport view' = ⟨200, 150, 400, 300⟩ := by
  refine ⟨fun rt2 v h1 h2 h3 h4 => ?_, ?_, ?_⟩
  · simp only [RenderTarget.getViewport, View.getViewport, IntRect.mk.injEq]
    exact ⟨truncQ_half_add _ h1, truncQ_half_add _ h2, truncQ_half_add _ h3,
      truncQ_half_add _ h4⟩
  · simp only [RenderTarget.getViewport, View.getViewport, RenderTarget.widthF,
      RenderTarget.heightF, hsize, hvp, IntRect.mk.injEq]
    refine ⟨?_, ?_, ?_, ?_⟩ <;> apply truncQ_concrete <;> norm_num
  · simp only [RenderTarget.getViewport, View.getViewport, RenderTarget.widthF,
      RenderTarget.heightF, hsize, hvp', IntRect.mk.injEq]
    refine ⟨?_, ?_, ?_, ?_⟩ <;> apply truncQ_concrete <;> norm_num

/-- Witness for C7 at a concrete 800×600 target and the two viewports. -/
theorem getViewport_rounds_half_up_witness :
    (RenderTarget.mk (800, 600) ⟨⟨0, 0, 1, 1⟩, Transform.Identity⟩
        ⟨⟨0, 0, 1, 1⟩, Transform.Identity⟩).getViewport
      ⟨⟨0, 0, 1, 1⟩, Transform.Identity⟩ = ⟨0, 0, 800, 600⟩ ∧
    (RenderTarget.mk (800, 600) ⟨⟨0, 0, 1, 1⟩, Transform.Identity⟩
        ⟨⟨0, 0, 1, 1⟩, Transform.Identity⟩).getViewport
      ⟨⟨1/4, 1/4, 1/2, 1/2⟩, Transform.Identity⟩ = ⟨200, 150, 400, 300⟩ :=
  ⟨(getViewport_rounds_half_up _ ⟨⟨0, 0, 1, 1⟩, Transform.Identity⟩
      ⟨⟨1/4, 1/4, 1/2, 1/2⟩, Transform.Identity⟩ rfl rfl rfl).2.1,
   (getViewport_rounds_half_up _ ⟨⟨0, 0, 1, 1⟩, Transform.Identity⟩
      ⟨⟨1/4, 1/4, 1/2, 1/2⟩, Transform.Identity⟩ rfl rfl rfl).2.2⟩

/-! ## C4: pixel/coords roundtrip -/

/-- Core of the roundtrip computation, over plain rationals: mapping a point
forward through the view transform and the (truncated) viewport mapping and
back recovers the point, up to the truncation residues pulled back through
the linear part of the inverse transform. -/
theorem roundtrip_core (A : Transform) (h20 : A.a20 = 0) (h21 : A.a21 = 0) (h22 : A.a22 = 1)
    (hdet : A.det ≠ 0) (w hgt l t : ℚ) (hw : w ≠ 0) (hh : hgt ≠ 0) (p : Vector2) :
    A.getInverse.transformPoint
        ⟨-1 + 2 * ((truncQ (((A.transformPoint p).x + 1) / 2 * w + l) : ℚ) - l) / w,
          1 - 2 * ((truncQ ((-(A.transformPoint p).y + 1) / 2 * hgt + t) : ℚ) - t) / hgt⟩ =
      ⟨p.x + (A.getInverse.a00 *
                (-(2 * ((((A.transformPoint p).x + 1) / 2 * w + l)
                        - (truncQ (((A.transformPoint p).x + 1) / 2 * w + l) : ℚ)) / w))
            + A.getInverse.a01 *
                (2 * (((-(A.transformPoint p).y + 1) / 2 * hgt + t)
                      - (truncQ ((-(A.transformPoint p).y + 1) / 2 * hgt + t) : ℚ)) / hgt)),
       p.y + (A.getInverse.a10 *
                (-(2 * ((((A.transformPoint p).x + 1) / 2 * w + l)
                        - (truncQ (((A.transformPoint p).x + 1) / 2 * w + l) : ℚ)) / w))
            + A.getInverse.a11 *
                (2 * (((-(A.transformPoint p).y + 1) / 2 * hgt + t)
                      - (truncQ ((-(A.transformPoint p).y + 1) / 2 * hgt + t) : ℚ)) / hgt))⟩ := by
  have harg :
      (⟨-1 + 2 * ((truncQ (((A.transformPoint p).x + 1) / 2 * w + l) : ℚ) - l) / w,
         1 - 2 * ((truncQ ((-(A.transformPoint p).y + 1) / 2 * hgt + t) : ℚ) - t) / hgt⟩ : Vector2) =
      ⟨(A.transformPoint p).x +
          (-(2 * ((((A.transformPoint p).x + 1) / 2 * w + l)
                  - (truncQ (((A.transformPoint p).x + 1) / 2 * w + l) : ℚ)) / w)),
        (A.transformPoint p).y +
          (2 * (((-(A.transformPoint p).y + 1) / 2 * hgt + t)
                - (truncQ ((-(A.transformPoint p).y + 1) / 2 * hgt + t) : ℚ)) / hgt)⟩ := by
    rw [Vector2.mk.injEq]
    constructor <;> field_simp <;> ring
  rw [harg]
  exact getInverse_transformPoint_affine A h20 h21 h22 hdet p
    ⟨-(2 * ((((A.transformPoint p).x + 1) / 2 * w + l)
            - (truncQ (((A.transformPoint p).x + 1) / 2 * w + l) : ℚ)) / w),
      2 * (((-(A.transformPoint p).y + 1) / 2 * hgt + t)
            - (truncQ ((-(A.transformPoint p).y + 1) / 2 * hgt + t) : ℚ)) / hgt⟩

/-- C4: for a non-degenerate view (affine view transform with nonzero
determinant, nonzero pixel viewport), `mapPixelToCoords(mapCoordsToPixel(p,
view), view)` returns `p` up to integer rounding: the difference is exactly
the two sub-pixel truncation residues (each of magnitude below one) scaled
by `2/width` resp. `2/height` and pulled back through the linear part of
the view's inverse transform. -/
theorem mapPixelToCoords_mapCoordsToPixel (rt : RenderTarget) (view : View) (p : Vector2)
    (h20 : view.transform.a20 = 0) (h21 : view.transform.a21 = 0) (h22 : view.transform.a22 = 1)
    (hdet : view.transform.det ≠ 0)
    (hw : (((rt.getViewport view).width : ℤ) : ℚ) ≠ 0)
    (hh : (((rt.getViewport view).height : ℤ) : ℚ) ≠ 0) :
    ∃ e1 e2 : ℚ, |e1| < 1 ∧ |e2| < 1 ∧
      rt.mapPixelToCoords (rt.mapCoordsToPixel p view) view =
        ⟨p.x + (view.transform.getInverse.a00 *
                  (-(2 * e1 / (((rt.getViewport view).width : ℤ) : ℚ)))
              + view.transform.getInverse.a01 *
                  (2 * e2 / (((rt.getViewport view).height : ℤ) : ℚ))),
         p.y + (view.transform.getInverse.a10 *
                  (-(2 * e1 / (((rt.getViewport view).width : ℤ) : ℚ)))
              + view.transform.getInverse.a11 *
                  (2 * e2 / (((rt.getViewport view).height : ℤ) : ℚ)))⟩ := by
  refine ⟨(((view.transform.transformPoint p).x + 1) / 2) * (((rt.getViewport view).width : ℤ) : ℚ)
            + ((rt.getViewport view).left : ℚ)
            - (truncQ ((((view.transform.transformPoint p).x + 1) / 2)
                * (((rt.getViewport view).width : ℤ) : ℚ) + ((rt.getViewport view).left : ℚ)) : ℚ),
          ((-(view.transform.transformPoint p).y + 1) / 2) * (((rt.getViewport view).height : ℤ) : ℚ)
            + ((rt.getViewport view).top : ℚ)
            - (truncQ (((-(view.transform.transformPoint p).y + 1) / 2)
                * (((rt.getViewport view).height : ℤ) : ℚ) + ((rt.getViewport view).top : ℚ)) : ℚ),
          abs_sub_truncQ_lt_one _, abs_sub_truncQ_lt_one _, ?_⟩
  have hcore := roundtrip_core view.transform h20 h21 h22 hdet
    (((rt.getViewport view).width : ℤ) : ℚ) (((rt.getViewport view).height : ℤ) : ℚ)
    (((rt.getViewport view).left : ℤ) : ℚ) (((rt.getViewport view).top : ℤ) : ℚ) hw hh p
  simp only [RenderTarget.mapPixelToCoords, RenderTarget.mapCoordsToPixel, View.getTransform,
    View.getInverseTransform]
  push_cast
  push_cast at hcore
  exact hcore

/-- Viewport of the concrete 800×600 full-viewport fixture. -/
theorem rtW_viewport : rtW.getViewport viewW = ⟨0, 0, 800, 600⟩ := by
  simp only [rtW, viewW, RenderTarget.getViewport, View.getViewport, RenderTarget.widthF,
    RenderTarget.heightF, IntRect.mk.injEq]
  refine ⟨?_, ?_, ?_, ?_⟩ <;> apply truncQ_concrete <;> norm_num

/-- Witness for C4 at the 800×600 identity view and the point (1/4, 1/3). -/
theorem mapPixelToCoords_mapCoordsToPixel_witness :
    ∃ e1 e2 : ℚ, |e1| < 1 ∧ |e2| < 1 ∧
      rtW.mapPixelToCoords (rtW.mapCoordsToPixel ⟨1/4, 1/3⟩ viewW) viewW =
        ⟨(⟨1/4, 1/3⟩ : Vector2).x + (viewW.transform.getInverse.a00 *
                  (-(2 * e1 / (((rtW.getViewport viewW).width : ℤ) : ℚ)))
              + viewW.transform.getInverse.a01 *
                  (2 * e2 / (((rtW.getViewport viewW).height : ℤ) : ℚ))),
         (⟨1/4, 1/3⟩ : Vector2).y + (viewW.transform.getInverse.a10 *
                  (-(2 * e1 / (((rtW.getViewport viewW).width : ℤ) : ℚ)))
              + viewW.transform.getInverse.a11 *
                  (2 * e2 / (((rtW.getViewport viewW).height : ℤ) : ℚ)))⟩ :=
  mapPixelToCoords_mapCoordsToPixel rtW viewW ⟨1/4, 1/3⟩ rfl rfl rfl
    (by norm_num [viewW, Transform.Identity, Transform.det])
    (by rw [rtW_viewport]; norm_num)
    (by rw [rtW_viewport]; norm_num)

/-! ## Step bookkeeping lemmas -/

theorem identity_transformPoint (p : Vector2) : Transform.Identity.transformPoint p = p := by
  simp [Transform.Identity, Transform.transformPoint]

theorem ensureGlStates_of_set (env : Env) (c : StatesCache) (h : c.glStatesSet = true) :
    ensureGlStates env c = (c, []) := by
  simp [ensureGlStates, h]

theorem geometryStep_fst (c : StatesCache) (st : RenderStates) (vs : List Vertex) :
    ∃ vc, (geometryStep c st vs).1 = { c with vertexCache := vc } := by
  simp only [geometryStep]
  split
  · split <;> exact ⟨_, rfl⟩
  · exact ⟨_, rfl⟩

theorem viewStep_fst (c : StatesCache) :
    ∃ b, (viewStep c).1 = { c with viewChanged := b } := by
  simp only [viewStep, applyCurrentView]
  split
  · exact ⟨_, rfl⟩
  · exact ⟨_, rfl⟩

theorem blendStep_fst (c : StatesCache) (st : RenderStates) :
    ∃ m, (blendStep c st).1 = { c with lastBlendMode := m } := by
  simp only [blendStep, applyBlendMode]
  split
  · exact ⟨_, rfl⟩
  · exact ⟨_, rfl⟩

theorem textureStep_fst (c : StatesCache) (st : RenderStates) :
    ∃ i, (textureStep c st).1 = { c with lastTextureId := i } := by
  simp only [textureStep, applyTexture]
  split
  · exact ⟨_, rfl⟩
  · exact ⟨_, rfl⟩

theorem shaderApplyStep_fst (c : StatesCache) (sh : Shader) (b : Bool) :
    ∃ pr bt, (shaderApplyStep c sh b).1 =
      { c with lastProgram := pr, lastProgramBoundTextures := bt } := by
  simp only [shaderApplyStep, applyShader]
  split
  · exact ⟨_, _, rfl⟩
  · exact ⟨_, _, rfl⟩

theorem colorStep_fst (c : StatesCache) (sh : Shader) (st : RenderStates) (b : Bool) :
    ∃ col, (colorStep c sh st b).1 = { c with lastColor := col } := by
  simp only [colorStep]
  split <;> split <;> exact ⟨_, rfl⟩

theorem colorStepAdvanced_fst (c : StatesCache) (sh : Shader) (st : RenderStates) :
    (colorStepAdvanced c sh st).1 =
      { c with lastColor := if st.useColor then st.color else Color.White } := rfl

theorem bufferStep_fst (c : StatesCache) (st : RenderStates) (vs : List Vertex)
    (ty : PrimitiveType) : (bufferStep c st vs ty).1 = { c with lastUsedVBO := st.useVBO } := rfl

theorem fboStep_fst (c : StatesCache) (st : RenderStates) :
    ∃ i, (fboStep c st).1 = { c with lastTextureId := i } := by
  simp only [fboStep, applyTexture]
  split
  · exact ⟨_, rfl⟩
  · exact ⟨_, rfl⟩

theorem geometryStep_proj (c : StatesCache) (st : RenderStates) (vs : List Vertex) :
    (geometryStep c st vs).1.glStatesSet = c.glStatesSet ∧
    (geometryStep c st vs).1.viewChanged = c.viewChanged ∧
    (geometryStep c st vs).1.lastBlendMode = c.lastBlendMode ∧
    (geometryStep c st vs).1.lastTextureId = c.lastTextureId ∧
    (geometryStep c st vs).1.lastColor = c.lastColor ∧
    (geometryStep c st vs).1.useVertexCache = c.useVertexCache ∧
    (geometryStep c st vs).1.lastUsedVBO = c.lastUsedVBO := by
  obtain ⟨vc, h⟩ := geometryStep_fst c st vs
  rw [h]
  exact ⟨rfl, rfl, rfl, rfl, rfl, rfl, rfl⟩

theorem viewStep_proj (c : StatesCache) :
    (viewStep c).1.glStatesSet = c.glStatesSet ∧
    (viewStep c).1.lastBlendMode = c.lastBlendMode ∧
    (viewStep c).1.lastTextureId = c.lastTextureId ∧
    (viewStep c).1.lastColor = c.lastColor ∧
    (viewStep c).1.vertexCache = c.vertexCache ∧
    (viewStep c).1.useVertexCache = c.useVertexCache ∧
    (viewStep c).1.lastUsedVBO = c.lastUsedVBO := by
  obtain ⟨b, h⟩ := viewStep_fst c
  rw [h]
  exact ⟨rfl, rfl, rfl, rfl, rfl, rfl, rfl⟩

theorem blendStep_proj (c : StatesCache) (st : RenderStates) :
    (blendStep c st).1.glStatesSet = c.glStatesSet ∧
    (blendStep c st).1.viewChanged = c.viewChanged ∧
    (blendStep c st).1.lastTextureId = c.lastTextureId ∧
    (blendStep c st).1.lastColor = c.lastColor ∧
    (blendStep c st).1.vertexCache = c.vertexCache ∧
    (blendStep c st).1.useVertexCache = c.useVertexCache ∧
    (blendStep c st).1.lastUsedVBO = c.lastUsedVBO := by
  obtain ⟨m, h⟩ := blendStep_fst c st
  rw [h]
  exact ⟨rfl, rfl, rfl, rfl, rfl, rfl, rfl⟩

theorem textureStep_proj (c : StatesCache) (st : RenderStates) :
    (textureStep c st).1.glStatesSet = c.glStatesSet ∧
    (textureStep c st).1.viewChanged = c.viewChanged ∧
    (textureStep c st).1.lastBlendMode = c.lastBlendMode ∧
    (textureStep c st).1.lastColor = c.lastColor ∧
    (textureStep c st).1.vertexCache = c.vertexCache ∧
    (textureStep c st).1.useVertexCache = c.useVertexCache ∧
    (textureStep c st).1.lastUsedVBO = c.lastUsedVBO := by
  obtain ⟨i, h⟩ := textureStep_fst c st
  rw [h]
  exact ⟨rfl, rfl, rfl, rfl, rfl, rfl, rfl⟩

theorem shaderApplyStep_proj (c : StatesCache) (sh : Shader) (b : Bool) :
    (shaderApplyStep c sh b).1.glStatesSet = c.glStatesSet ∧
    (shaderApplyStep c sh b).1.viewChanged = c.viewChanged ∧
    (shaderApplyStep c sh b).1.lastBlendMode = c.lastBlendMode ∧
    (shaderApplyStep c sh b).1.lastTextureId = c.lastTextureId ∧
    (shaderApplyStep c sh b).1.lastColor = c.lastColor ∧
    (shaderApplyStep c sh b).1.vertexCache = c.vertexCache ∧
    (shaderApplyStep c sh b).1.useVertexCache = c.useVertexCache ∧
    (shaderApplyStep c sh b).1.lastUsedVBO = c.lastUsedVBO := by
  obtain ⟨pr, bt, h⟩ := shaderApplyStep_fst c sh b
  rw [h]
  exact ⟨rfl, rfl, rfl, rfl, rfl, rfl, rfl, rfl⟩

theorem colorStep_proj (c : StatesCache) (sh : Shader) (st : RenderStates) (b : Bool) :
    (colorStep c sh st b).1.glStatesSet = c.glStatesSet ∧
    (colorStep c sh st b).1.viewChanged = c.viewChanged ∧
    (colorStep c sh st b).1.lastBlendMode = c.lastBlendMode ∧
    (colorStep c sh st b).1.lastTextureId = c.lastTextureId ∧
    (colorStep c sh st b).1.vertexCache = c.vertexCache ∧
    (colorStep c sh st b).1.useVertexCache = c.useVertexCache ∧
    (colorStep c sh st b).1.lastUsedVBO = c.lastUsedVBO := by
  obtain ⟨col, h⟩ := colorStep_fst c sh st b
  rw [h]
  exact ⟨rfl, rfl, rfl, rfl, rfl, rfl, rfl⟩

theorem colorStepAdvanced_proj (c : StatesCache) (sh : Shader) (st : RenderStates) :
    (colorStepAdvanced c sh st).1.glStatesSet = c.glStatesSet ∧
    (colorStepAdvanced c sh st).1.viewChanged = c.viewChanged ∧
    (colorStepAdvanced c sh st).1.lastBlendMode = c.lastBlendMode ∧
    (colorStepAdvanced c sh st).1.lastTextureId = c.lastTextureId ∧
    (colorStepAdvanced c sh st).1.lastColor = (if st.useColor then st.color else Color.White) ∧
    (colorStepAdvanced c sh st).1.vertexCache = c.vertexCache ∧
    (colorStepAdvanced c sh st).1.useVertexCache = c.useVertexCache ∧
    (colorStepAdvanced c sh st).1.lastUsedVBO = c.lastUsedVBO :=
  ⟨rfl, rfl, rfl, rfl, rfl, rfl, rfl, rfl⟩

theorem bufferStep_proj (c : StatesCache) (st : RenderStates) (vs : List Vertex)
    (ty : PrimitiveType) :
    (bufferStep c st vs ty).1.glStatesSet = c.glStatesSet ∧
    (bufferStep c st vs ty).1.viewChanged = c.viewChanged ∧
    (bufferStep c st vs ty).1.lastBlendMode = c.lastBlendMode ∧
    (bufferStep c st vs ty).1.lastTextureId = c.lastTextureId ∧
    (bufferStep c st vs ty).1.lastColor = c.lastColor ∧
    (bufferStep c st vs ty).1.vertexCache = c.vertexCache ∧
    (bufferStep c st vs ty).1.useVertexCache = c.useVertexCache ∧
    (bufferStep c st vs ty).1.lastUsedVBO = st.useVBO :=
  ⟨rfl, rfl, rfl, rfl, rfl, rfl, rfl, rfl⟩

theorem fboStep_proj (c : StatesCache) (st : RenderStates) :
    (fboStep c st).1.glStatesSet = c.glStatesSet ∧
    (fboStep c st).1.viewChanged = c.viewChanged ∧
    (fboStep c st).1.lastBlendMode = c.lastBlendMode ∧
    (fboStep c st).1.lastColor = c.lastColor ∧
    (fboStep c st).1.vertexCache = c.vertexCache ∧
    (fboStep c st).1.useVertexCache = c.useVertexCache ∧
    (fboStep c st).1.lastUsedVBO = c.lastUsedVBO := by
  obtain ⟨i, h⟩ := fboStep_fst c st
  rw [h]
  exact ⟨rfl, rfl, rfl, rfl, rfl, rfl, rfl⟩

/-! ## Event-shape lemmas for the dispatch steps -/

theorem viewStep_snd (c : StatesCache) :
    (viewStep c).2 = if c.viewChanged then [GLEvent.applyCurrentViewCall] else [] := by
  rw [viewStep]
  split <;> rfl

theorem blendStep_snd (c : StatesCache) (st : RenderStates) :
    (blendStep c st).2 =
      if st.blendMode ≠ c.lastBlendMode then [GLEvent.applyBlendModeCall st.blendMode] else [] := by
  rw [blendStep]
  split <;> rfl

theorem textureStep_snd (c : StatesCache) (st : RenderStates) :
    (textureStep c st).2 =
      if textureIdOf st.texture ≠ c.lastTextureId ∨ st.textureTransform ≠ none then
        [GLEvent.applyTextureCall st]
      else [] := by
  rw [textureStep]
  split <;> rfl

theorem geometryStep_snd (c : StatesCache) (st : RenderStates) (vs : List Vertex) :
    (geometryStep c st vs).2 =
      if useVertexCacheFlag vs st then
        (if !c.useVertexCache then [GLEvent.applyTransformCall Transform.Identity] else [])
      else [GLEvent.applyTransformCall st.transform] := by
  simp only [geometryStep]
  split
  · split <;> simp_all
  · rfl

theorem shaderApplyStep_snd (c : StatesCache) (sh : Shader) (b : Bool) :
    (shaderApplyStep c sh b).2 = if b then [GLEvent.applyShaderCall (some sh)] else [] := by
  rw [shaderApplyStep]
  split <;> rfl

theorem colorStep_snd (c : StatesCache) (sh : Shader) (st : RenderStates) (b : Bool) :
    (colorStep c sh st b).2 =
      if decide ((if st.useColor then st.color else Color.White) ≠ c.lastColor) || b then
        [GLEvent.setColorUniform sh.colorLocation (if st.useColor then st.color else Color.White)]
      else [] := by
  simp only [colorStep]
  split <;> split <;> rfl

theorem colorStepAdvanced_snd (c : StatesCache) (sh : Shader) (st : RenderStates) :
    (colorStepAdvanced c sh st).2 =
      [GLEvent.setColorUniform sh.colorLocation (if st.useColor then st.color else Color.White)] :=
  rfl

theorem fboStep_snd (c : StatesCache) (st : RenderStates) :
    (fboStep c st).2 =
      if fboTexture st.texture then [GLEvent.applyTextureCall RenderStates.default] else [] := by
  rw [fboStep]
  split <;> rfl

theorem geometryStep_vertexCache_get (c : StatesCache) (st : RenderStates) (vs : List Vertex)
    (hflag : useVertexCacheFlag vs st = true) (i : ℕ) (v : Vertex) (hi : vs[i]? = some v) :
    (geometryStep c st vs).1.vertexCache[i]? =
      some ⟨st.transform.transformPoint v.position, v.color, v.texCoords⟩ := by
  have hlt : i < vs.length := by
    by_contra hge
    rw [List.getElem?_eq_none (by omega)] at hi
    exact Option.noConfusion hi
  have hgv : vs[i] = v := by
    rw [List.getElem?_eq_getElem hlt] at hi
    exact Option.some.inj hi
  rw [geometryStep, if_pos hflag]
  split <;>
    simp [pretransform, List.getElem?_append, List.getElem?_map, hlt, hgv]

/-! ## C1: activation gating -/

/-- C1 (amended): `draw` with vertices and `clear` proceed only when
activation succeeds; on failure they are silent no-ops with no cache
mutation and no GPU call. (`drawAdvanced` is the exception: it carries no
activation guard, see the counterexample.) -/
theorem draw_clear_skip_without_activation (env : Env) (rt : RenderTarget) (cache : StatesCache)
    (vertices : List Vertex) (type : PrimitiveType) (states : RenderStates) (color : Color)
    (h : env.activateOk = false) :
    RenderTarget.draw env rt cache vertices type states = (cache, []) ∧
    RenderTarget.clear env cache color = (cache, []) := by
  constructor
  · rw [RenderTarget.draw]
    split
    · rfl
    · rw [if_neg (by simp [h])]
  · rw [RenderTarget.clear, if_neg (by simp [h])]

/-- Witness for C1's amended statement at a concrete failing environment. -/
theorem draw_clear_skip_without_activation_witness :
    RenderTarget.draw envFail rtW cacheW [vtxW] PrimitiveType.Points RenderStates.default =
        (cacheW, []) ∧
    RenderTarget.clear envFail cacheW Color.White = (cacheW, []) :=
  draw_clear_skip_without_activation envFail rtW cacheW [vtxW] PrimitiveType.Points
    RenderStates.default Color.White rfl

/-- C1 counterexample: with activation failing, `drawAdvanced` still
proceeds — it is not the silently-skipped no-op `(cache, [])`: it issues
GPU calls and mutates the cache. -/
theorem drawAdvanced_ignores_activation :
    RenderTarget.drawAdvanced envFail rtW cacheW [vtxW] PrimitiveType.Points
        { RenderStates.default with shader := some shW, useVBO := true } ≠
      some (cacheW, []) := by
  simp [RenderTarget.drawAdvanced, envFail, rtW, cacheW, vtxW, shW, RenderStates.default,
    ensureGlStates, geometryStep, viewStep, blendStep, textureStep, colorStepAdvanced,
    bufferStep, fboStep, useVertexCacheFlag, resetGLStates, applyTexture, applyBlendMode,
    applyShader, applyCurrentView, textureIdOf, fboTexture, VertexCacheSize, pretransform]

/-! ## C2: the advanced path's shader requirement and color policy -/

/-- C2 (amended): `drawAdvanced` requires a caller-supplied shader — with a
null shader (and a nonempty vertex list) the call asserts/dereferences the
null pointer, modelled as the undefined result `none`, rather than
substituting a default or no-opping; with a shader supplied it always
re-uploads the tint color uniform and records it, regardless of the cached
last color. -/
theorem drawAdvanced_shader_contract (env : Env) (rt : RenderTarget) (cache : StatesCache)
    (vertices : List Vertex) (type : PrimitiveType) (states : RenderStates)
    (hv : vertices ≠ []) :
    (states.shader = none → RenderTarget.drawAdvanced env rt cache vertices type states = none) ∧
    (∀ sh : Shader, states.shader = some sh →
      ∃ c' evs, RenderTarget.drawAdvanced env rt cache vertices type states = some (c', evs) ∧
        GLEvent.setColorUniform sh.colorLocation
            (if states.useColor then states.color else Color.White) ∈ evs ∧
        c'.lastColor = (if states.useColor then states.color else Color.White)) := by
  constructor
  · intro hsh
    rw [RenderTarget.drawAdvanced, if_neg hv, hsh]
  · intro sh hsh
    rw [RenderTarget.drawAdvanced, if_neg hv, hsh]
    refine ⟨_, _, rfl, ?_, ?_⟩
    · simp [colorStepAdvanced, List.mem_append]
    · simp only [(fboStep_proj _ _).2.2.2.1, (bufferStep_proj _ _ _ _).2.2.2.2.1,
        (colorStepAdvanced_proj _ _ _).2.2.2.2.1]

/-- Witness for C2 at concrete inputs, with the cached last color already
equal to the resolved tint (the re-upload still happens). -/
theorem drawAdvanced_shader_contract_witness :
    ({ RenderStates.default with shader := (none : Option Shader) }.shader = none →
      RenderTarget.drawAdvanced envW rtW cacheW [vtxW] PrimitiveType.Points
        { RenderStates.default with shader := none } = none) ∧
    (∀ sh : Shader, { RenderStates.default with shader := (some shW : Option Shader) }.shader = some sh →
      ∃ c' evs, RenderTarget.drawAdvanced envW rtW cacheW [vtxW] PrimitiveType.Points
          { RenderStates.default with shader := some shW } = some (c', evs) ∧
        GLEvent.setColorUniform sh.colorLocation
            (if ({ RenderStates.default with shader := some shW } : RenderStates).useColor
             then ({ RenderStates.default with shader := some shW } : RenderStates).color
             else Color.White) ∈ evs ∧
        c'.lastColor = (if ({ RenderStates.default with shader := some shW } : RenderStates).useColor
             then ({ RenderStates.default with shader := some shW } : RenderStates).color
             else Color.White)) :=
  ⟨(drawAdvanced_shader_contract envW rtW cacheW [vtxW] PrimitiveType.Points
      { RenderStates.default with shader := none } (by simp)).1,
   (drawAdvanced_shader_contract envW rtW cacheW [vtxW] PrimitiveType.Points
      { RenderStates.default with shader := some shW } (by simp)).2⟩

/-- C2 counterexample: at a concrete nonempty draw with a null shader the
advanced path neither substitutes a default shader nor becomes a no-op —
the call is the undefined/asserting result `none`. -/
theorem drawAdvanced_null_shader_crashes :
    RenderTarget.drawAdvanced envW rtW cacheW [vtxW] PrimitiveType.Points
      { RenderStates.default with shader := none } = none := by
  rw [RenderTarget.drawAdvanced, if_neg (by simp)]

/-! ## C3: vertex-cache fast-path equivalence -/

/-- C3: on the vertex-cache fast path (vertex count at most the scratch
capacity, static-buffer path not selected), each scratch-cache entry `i`
holds the descriptor's transform applied to the caller's vertex position
with color and texture coordinates copied unchanged, and applying the
identity transform to the pre-transformed position yields exactly what the
non-cached path (`applyTransform(states.transform)`) would produce; this
holds on both entry points. -/
theorem draw_vertexCache_pretransform (env : Env) (rt : RenderTarget) (cache : StatesCache)
    (vertices : List Vertex) (type : PrimitiveType) (states : RenderStates)
    (hact : env.activateOk = true) (hv : vertices ≠ [])
    (hlen : vertices.length ≤ VertexCacheSize) (hvbo : states.useVBO = false)
    (i : ℕ) (v : Vertex) (hi : vertices[i]? = some v) :
    ((RenderTarget.draw env rt cache vertices type states).1.vertexCache[i]? =
        some ⟨states.transform.transformPoint v.position, v.color, v.texCoords⟩ ∧
      Transform.Identity.transformPoint (states.transform.transformPoint v.position) =
        states.transform.transformPoint v.position) ∧
    (∀ sh : Shader, states.shader = some sh →
      ∃ c' evs, RenderTarget.drawAdvanced env rt cache vertices type states = some (c', evs) ∧
        c'.vertexCache[i]? =
          some ⟨states.transform.transformPoint v.position, v.color, v.texCoords⟩) := by
  have hflag : useVertexCacheFlag vertices states = true := by
    simp [useVertexCacheFlag, hlen, hvbo]
  refine ⟨⟨?_, identity_transformPoint _⟩, ?_⟩
  · rw [RenderTarget.draw, if_neg hv, if_pos hact]
    simp only [fboStep_proj, bufferStep_proj, colorStep_proj, shaderApplyStep_proj,
      textureStep_proj, blendStep_proj, viewStep_proj]
    exact geometryStep_vertexCache_get _ states vertices hflag i v hi
  · intro sh hsh
    rw [RenderTarget.drawAdvanced, if_neg hv, hsh]
    refine ⟨_, _, rfl, ?_⟩
    simp only [fboStep_proj, bufferStep_proj, colorStepAdvanced_proj, textureStep_proj,
      blendStep_proj, viewStep_proj]
    exact geometryStep_vertexCache_get _ states vertices hflag i v hi

/-- Witness for C3: one vertex drawn through both entry points on a
baseline cache. -/
theorem draw_vertexCache_pretransform_witness :
    ((RenderTarget.draw envW rtW cacheW [vtxW] PrimitiveType.Points
          { RenderStates.default with shader := some shW }).1.vertexCache[0]? =
        some ⟨({ RenderStates.default with
                  shader := some shW } : RenderStates).transform.transformPoint vtxW.position,
              vtxW.color, vtxW.texCoords⟩ ∧
      Transform.Identity.transformPoint
          (({ RenderStates.default with
               shader := some shW } : RenderStates).transform.transformPoint vtxW.position) =
        ({ RenderStates.default with
            shader := some shW } : RenderStates).transform.transformPoint vtxW.position) ∧
    (∀ sh : Shader, ({ RenderStates.default with shader := some shW } : RenderStates).shader = some sh →
      ∃ c' evs, RenderTarget.drawAdvanced envW rtW cacheW [vtxW] PrimitiveType.Points
          { RenderStates.default with shader := some shW } = some (c', evs) ∧
        c'.vertexCache[0]? =
          some ⟨({ RenderStates.default with
                    shader := some shW } : RenderStates).transform.transformPoint vtxW.position,
                vtxW.color, vtxW.texCoords⟩) :=
  draw_vertexCache_pretransform envW rtW cacheW [vtxW] PrimitiveType.Points
    { RenderStates.default with shader := some shW } rfl (by simp) (by simp [VertexCacheSize])
    rfl 0 vtxW rfl

/-! ## C5: blend-mode caching -/

theorem countBlend_append (a b : List GLEvent) :
    countBlend (a ++ b) = countBlend a + countBlend b := by
  simp [countBlend, List.filter_append]

theorem countBlend_nil : countBlend [] = 0 := rfl

theorem countBlend_bufferStep (c : StatesCache) (st : RenderStates) (vs : List Vertex)
    (ty : PrimitiveType) : countBlend (bufferStep c st vs ty).2 = 0 := by
  simp only [bufferStep]
  split_ifs <;> simp [countBlend, isBlendApply, List.filter_append] <;> split <;>
    simp [isBlendApply]

theorem countBlend_defaultShaderUniformEvents (env : Env) (st : RenderStates) :
    countBlend (defaultShaderUniformEvents env st) = 0 := by
  simp only [defaultShaderUniformEvents]
  split <;> simp [countBlend, isBlendApply]

theorem countBlend_geometryStep (c : StatesCache) (st : RenderStates) (vs : List Vertex) :
    countBlend (geometryStep c st vs).2 = 0 := by
  rw [geometryStep_snd]
  split_ifs <;> rfl

theorem countBlend_viewStep (c : StatesCache) : countBlend (viewStep c).2 = 0 := by
  rw [viewStep_snd]
  split <;> rfl

theorem countBlend_textureStep (c : StatesCache) (st : RenderStates) :
    countBlend (textureStep c st).2 = 0 := by
  rw [textureStep_snd]
  split <;> rfl

theorem countBlend_shaderApplyStep (c : StatesCache) (sh : Shader) (b : Bool) :
    countBlend (shaderApplyStep c sh b).2 = 0 := by
  rw [shaderApplyStep_snd]
  split <;> rfl

theorem countBlend_colorStep (c : StatesCache) (sh : Shader) (st : RenderStates) (b : Bool) :
    countBlend (colorStep c sh st b).2 = 0 := by
  rw [colorStep_snd]
  split_ifs <;> rfl

theorem countBlend_fboStep (c : StatesCache) (st : RenderStates) :
    countBlend (fboStep c st).2 = 0 := by
  rw [fboStep_snd]
  split <;> rfl

theorem countBlend_blendStep (c : StatesCache) (st : RenderStates) :
    countBlend (blendStep c st).2 = if st.blendMode ≠ c.lastBlendMode then 1 else 0 := by
  rw [blendStep_snd]
  split <;> rfl

theorem blendStep_lastBlendMode (c : StatesCache) (st : RenderStates) :
    (blendStep c st).1.lastBlendMode =
      (if st.blendMode ≠ c.lastBlendMode then st.blendMode else c.lastBlendMode) := by
  rw [blendStep]
  split <;> rfl

/-- Characterization of one generic draw with the baseline already
established: `applyBlendMode` executes exactly when the draw proceeds and
the descriptor's blend mode differs from the cached one, the cached last
blend mode afterwards is the descriptor's (when the draw proceeded), and
the baseline flag stays set. -/
theorem draw_blend_char (env : Env) (rt : RenderTarget) (cache : StatesCache)
    (vs : List Vertex) (ty : PrimitiveType) (st : RenderStates)
    (hset : cache.glStatesSet = true) :
    countBlend (RenderTarget.draw env rt cache vs ty st).2 =
      (if vs ≠ [] ∧ env.activateOk = true ∧ st.blendMode ≠ cache.lastBlendMode then 1 else 0) ∧
    (RenderTarget.draw env rt cache vs ty st).1.lastBlendMode =
      (if vs ≠ [] ∧ env.activateOk = true ∧ st.blendMode ≠ cache.lastBlendMode then st.blendMode
       else cache.lastBlendMode) ∧
    (RenderTarget.draw env rt cache vs ty st).1.glStatesSet = true := by
  rcases eq_or_ne vs [] with hvs | hvs
  · subst hvs
    simp [RenderTarget.draw, countBlend, hset]
  by_cases hact : env.activateOk = true
  case neg =>
    rw [RenderTarget.draw, if_neg hvs, if_neg hact]
    have hact' : env.activateOk = false := by simpa using hact
    simp [countBlend, hact', hset]
  case pos =>
    rw [RenderTarget.draw, if_neg hvs, if_pos hact]
    refine ⟨?_, ?_, ?_⟩
    · simp only [ensureGlStates_of_set env cache hset, countBlend_append, countBlend_nil,
        countBlend_geometryStep, countBlend_viewStep, countBlend_blendStep,
        countBlend_textureStep, countBlend_shaderApplyStep, countBlend_colorStep,
        countBlend_bufferStep, countBlend_fboStep, countBlend_defaultShaderUniformEvents,
        geometryStep_proj, viewStep_proj]
      simp [hvs, hact]
    · simp only [ensureGlStates_of_set env cache hset, fboStep_proj, bufferStep_proj,
        colorStep_proj, shaderApplyStep_proj, textureStep_proj, blendStep_lastBlendMode,
        viewStep_proj, geometryStep_proj]
      simp [hvs, hact]
    · simp only [ensureGlStates_of_set env cache hset, fboStep_proj, bufferStep_proj,
        colorStep_proj, shaderApplyStep_proj, textureStep_proj, blendStep_proj,
        viewStep_proj, geometryStep_proj]
      exact hset

/-- C5 (amended): for two consecutive generic draws with identical blend
modes, `applyBlendMode` executes at most once across the pair — provided
the GL baseline flag is set before the first draw (otherwise the first
draw's `resetGLStates` itself executes `applyBlendMode(BlendAlpha)` in
addition to the dispatch call, see the counterexample). The mechanism is as
the claim states: `applyBlendMode` always records its argument as the
cached last blend mode and the dispatch calls it only on a difference. -/
theorem consecutive_same_blend_applies_at_most_once (env1 env2 : Env) (rt1 rt2 : RenderTarget)
    (cache : StatesCache) (vs1 vs2 : List Vertex) (ty1 ty2 : PrimitiveType)
    (st1 st2 : RenderStates) (hset : cache.glStatesSet = true)
    (hbm : st1.blendMode = st2.blendMode) :
    countBlend ((RenderTarget.draw env1 rt1 cache vs1 ty1 st1).2 ++
        (RenderTarget.draw env2 rt2 (RenderTarget.draw env1 rt1 cache vs1 ty1 st1).1
          vs2 ty2 st2).2) ≤ 1 := by
  obtain ⟨h1c, h1m, h1s⟩ := draw_blend_char env1 rt1 cache vs1 ty1 st1 hset
  obtain ⟨h2c, h2m, h2s⟩ := draw_blend_char env2 rt2 _ vs2 ty2 st2 h1s
  rw [countBlend_append, h1c, h2c, h1m]
  by_cases hA : vs1 ≠ [] ∧ env1.activateOk = true ∧ st1.blendMode ≠ cache.lastBlendMode
  · rw [if_pos hA, if_pos hA, if_neg (by simp [hbm])]
  · rw [if_neg hA, if_neg hA]
    split_ifs <;> simp

/-- Witness for C5's amended statement at concrete draws sharing a blend
mode that differs from the cached one. -/
theorem consecutive_same_blend_applies_at_most_once_witness :
    countBlend ((RenderTarget.draw envW rtW cacheW [vtxW] PrimitiveType.Points
          { RenderStates.default with
              blendMode := { BlendMode.blendAlpha with colorSrcFactor := BlendFactor.One },
              useVBO := true }).2 ++
        (RenderTarget.draw envW rtW (RenderTarget.draw envW rtW cacheW [vtxW]
              PrimitiveType.Points
              { RenderStates.default with
                  blendMode := { BlendMode.blendAlpha with colorSrcFactor := BlendFactor.One },
                  useVBO := true }).1 [vtxW] PrimitiveType.Points
          { RenderStates.default with
              blendMode := { BlendMode.blendAlpha with colorSrcFactor := BlendFactor.One },
              useVBO := true }).2) ≤ 1 :=
  consecutive_same_blend_applies_at_most_once envW envW rtW rtW cacheW [vtxW] [vtxW]
    PrimitiveType.Points PrimitiveType.Points
    { RenderStates.default with
        blendMode := { BlendMode.blendAlpha with colorSrcFactor := BlendFactor.One },
        useVBO := true }
    { RenderStates.default with
        blendMode := { BlendMode.blendAlpha with colorSrcFactor := BlendFactor.One },
        useVBO := true }
    rfl rfl

/-- C5 counterexample: starting from a fresh cache (baseline not yet
established) two consecutive draws with the same non-default blend mode
execute `applyBlendMode` twice — once inside the first draw's
`resetGLStates` (with `BlendAlpha`) and once in the dispatch. -/
theorem blend_applied_twice_on_first_draw :
    1 < countBlend ((RenderTarget.draw envW rtW { cacheW with glStatesSet := false } [vtxW]
          PrimitiveType.Points
          { RenderStates.default with
              blendMode := { BlendMode.blendAlpha with colorSrcFactor := BlendFactor.One },
              useVBO := true }).2 ++
        (RenderTarget.draw envW rtW (RenderTarget.draw envW rtW
              { cacheW with glStatesSet := false } [vtxW] PrimitiveType.Points
              { RenderStates.default with
                  blendMode := { BlendMode.blendAlpha with colorSrcFactor := BlendFactor.One },
                  useVBO := true }).1 [vtxW] PrimitiveType.Points
          { RenderStates.default with
              blendMode := { BlendMode.blendAlpha with colorSrcFactor := BlendFactor.One },
              useVBO := true }).2) := by
  simp [RenderTarget.draw, envW, rtW, cacheW, vtxW, RenderStates.default, ensureGlStates,
    resetGLStates, geometryStep, viewStep, blendStep, textureStep, shaderApplyStep, colorStep,
    colorStepAdvanced, bufferStep, fboStep, useVertexCacheFlag, applyTexture, applyBlendMode,
    applyShader, applyCurrentView, textureIdOf, fboTexture, VertexCacheSize, pretransform,
    resolveShader, defaultShaderUniformEvents, setColourFlag, Env.getDefaultShader,
    BlendMode.blendAlpha, countBlend, isBlendApply, Color.White, shW, Vertex.default]

/-! ## C6: texture identity caching -/

theorem texApply_not_mem_geometryStep (s : RenderStates) (c : StatesCache) (st : RenderStates)
    (vs : List Vertex) : GLEvent.applyTextureCall s ∉ (geometryStep c st vs).2 := by
  rw [geometryStep_snd]
  split_ifs <;> simp

theorem texApply_not_mem_viewStep (s : RenderStates) (c : StatesCache) :
    GLEvent.applyTextureCall s ∉ (viewStep c).2 := by
  rw [viewStep_snd]
  split <;> simp

theorem texApply_not_mem_blendStep (s : RenderStates) (c : StatesCache) (st : RenderStates) :
    GLEvent.applyTextureCall s ∉ (blendStep c st).2 := by
  rw [blendStep_snd]
  split <;> simp

theorem texApply_not_mem_defaultShaderUniformEvents (s : RenderStates) (env : Env)
    (st : RenderStates) : GLEvent.applyTextureCall s ∉ defaultShaderUniformEvents env st := by
  rw [defaultShaderUniformEvents]
  split <;> simp

theorem texApply_not_mem_shaderApplyStep (s : RenderStates) (c : StatesCache) (sh : Shader)
    (b : Bool) : GLEvent.applyTextureCall s ∉ (shaderApplyStep c sh b).2 := by
  rw [shaderApplyStep_snd]
  split <;> simp

theorem texApply_not_mem_colorStep (s : RenderStates) (c : StatesCache) (sh : Shader)
    (st : RenderStates) (b : Bool) : GLEvent.applyTextureCall s ∉ (colorStep c sh st b).2 := by
  rw [colorStep_snd]
  split_ifs <;> simp

theorem texApply_not_mem_bufferStep (s : RenderStates) (c : StatesCache) (st : RenderStates)
    (vs : List Vertex) (ty : PrimitiveType) :
    GLEvent.applyTextureCall s ∉ (bufferStep c st vs ty).2 := by
  simp only [bufferStep]
  split_ifs <;> simp

theorem texApply_mem_textureStep_iff (s : RenderStates) (c : StatesCache) (st : RenderStates) :
    GLEvent.applyTextureCall s ∈ (textureStep c st).2 ↔
      ((textureIdOf st.texture ≠ c.lastTextureId ∨ st.textureTransform ≠ none) ∧ s = st) := by
  rw [textureStep_snd]
  split_ifs with h <;> simp [h]

theorem texApply_mem_fboStep_iff (s : RenderStates) (c : StatesCache) (st : RenderStates) :
    GLEvent.applyTextureCall s ∈ (fboStep c st).2 ↔
      (fboTexture st.texture = true ∧ s = RenderStates.default) := by
  rw [fboStep_snd]
  split_ifs with h <;> simp [h]

/-- C6: on a generic draw (baseline established, activation succeeding,
nonempty vertices), the dispatch's texture application — an `applyTexture`
re-bind carrying the draw's descriptor — is issued if and only if the
descriptor's recomputed stable texture identity (the texture's cache id, 0
when no texture) differs from the cached last-bound identity, or the
descriptor carries a texture-coordinate transform. In particular a texture
whose stable identity differs from the cached one always triggers a
re-bind, no matter what storage it reuses. -/
theorem draw_texture_rebind_iff (env : Env) (rt : RenderTarget) (cache : StatesCache)
    (vs : List Vertex) (ty : PrimitiveType) (st : RenderStates)
    (hact : env.activateOk = true) (hset : cache.glStatesSet = true) (hv : vs ≠ []) :
    (GLEvent.applyTextureCall st ∈ (RenderTarget.draw env rt cache vs ty st).2 ↔
      textureIdOf st.texture ≠ cache.lastTextureId ∨ st.textureTransform ≠ none) ∧
    (∀ t : Texture, st.texture = some t → t.cacheId ≠ cache.lastTextureId →
      GLEvent.applyTextureCall st ∈ (RenderTarget.draw env rt cache vs ty st).2) := by
  have hmain : GLEvent.applyTextureCall st ∈ (RenderTarget.draw env rt cache vs ty st).2 ↔
      textureIdOf st.texture ≠ cache.lastTextureId ∨ st.textureTransform ≠ none := by
    rw [RenderTarget.draw, if_neg hv, if_pos hact]
    simp only [ensureGlStates_of_set env cache hset, List.mem_append,
      texApply_not_mem_geometryStep, texApply_not_mem_viewStep, texApply_not_mem_blendStep,
      texApply_not_mem_defaultShaderUniformEvents, texApply_not_mem_shaderApplyStep,
      texApply_not_mem_colorStep, texApply_not_mem_bufferStep, texApply_mem_textureStep_iff,
      texApply_mem_fboStep_iff, geometryStep_proj, viewStep_proj, blendStep_proj,
      List.not_mem_nil, false_or, or_false]
    constructor
    · rintro (⟨hcond, -⟩ | ⟨hfbo, hdef⟩)
      · exact hcond
      · subst hdef
        simp [RenderStates.default, fboTexture] at hfbo
    · intro hcond
      exact Or.inl ⟨hcond, trivial⟩
  refine ⟨hmain, fun t htex hne => hmain.mpr (Or.inl ?_)⟩
  rw [htex]
  exact hne

/-- Witness for C6: a texture with a fresh stable identity (42) differing
from the cached identity (0) triggers the re-bind. -/
theorem draw_texture_rebind_iff_witness :
    (GLEvent.applyTextureCall { RenderStates.default with texture := some texW, useVBO := true } ∈
        (RenderTarget.draw envW rtW cacheW [vtxW] PrimitiveType.Points
          { RenderStates.default with texture := some texW, useVBO := true }).2 ↔
      textureIdOf ({ RenderStates.default with
          texture := some texW, useVBO := true } : RenderStates).texture ≠ cacheW.lastTextureId ∨
        ({ RenderStates.default with
            texture := some texW, useVBO := true } : RenderStates).textureTransform ≠ none) ∧
    (∀ t : Texture, ({ RenderStates.default with
          texture := some texW, useVBO := true } : RenderStates).texture = some t →
      t.cacheId ≠ cacheW.lastTextureId →
      GLEvent.applyTextureCall { RenderStates.default with texture := some texW, useVBO := true } ∈
        (RenderTarget.draw envW rtW cacheW [vtxW] PrimitiveType.Points
          { RenderStates.default with texture := some texW, useVBO := true }).2) :=
  draw_texture_rebind_iff envW rtW cacheW [vtxW] PrimitiveType.Points
    { RenderStates.default with texture := some texW, useVBO := true } rfl rfl (by simp)

/-! ## C8: off-screen texture workaround -/

theorem bufferStep_ends_with_raster (c : StatesCache) (st : RenderStates) (vs : List Vertex)
    (ty : PrimitiveType) :
    ∃ pre, (bufferStep c st vs ty).2 =
      pre ++ [if st.useVBO then GLEvent.drawElementsCall
              else GLEvent.drawArraysCall ty vs.length] := by
  simp only [bufferStep]
  split_ifs <;> exact ⟨_, by rw [← List.append_assoc]⟩

theorem raster_tail_shape (X : List GLEvent) (C : StatesCache) (st : RenderStates)
    (vs : List Vertex) (ty : PrimitiveType) (tailEv : GLEvent) :
    ∃ p, (X ++ (bufferStep C st vs ty).2) ++ [tailEv] =
      p ++ [if st.useVBO then GLEvent.drawElementsCall
            else GLEvent.drawArraysCall ty vs.length, tailEv] := by
  obtain ⟨pre0, hb⟩ := bufferStep_ends_with_raster C st vs ty
  exact ⟨X ++ pre0, by rw [hb]; simp⟩

/-- C8: on both entry points, when the descriptor's texture is flagged as
an offscreen render target's attachment, the trace ends with the
rasterization call immediately followed by the texture unbind
(`applyTexture` with the empty descriptor), before the call returns. -/
theorem draw_fbo_unbind_after_raster (env : Env) (rt : RenderTarget) (cache : StatesCache)
    (vs : List Vertex) (ty : PrimitiveType) (st : RenderStates)
    (hact : env.activateOk = true) (hv : vs ≠ [])
    (t : Texture) (htex : st.texture = some t) (hfbo : t.fboAttachment = true) :
    (∃ pre, (RenderTarget.draw env rt cache vs ty st).2 =
        pre ++ [if st.useVBO then GLEvent.drawElementsCall
                else GLEvent.drawArraysCall ty vs.length,
                GLEvent.applyTextureCall RenderStates.default]) ∧
    (∀ sh : Shader, st.shader = some sh →
      ∃ c' evs, RenderTarget.drawAdvanced env rt cache vs ty st = some (c', evs) ∧
        ∃ pre, evs =
          pre ++ [if st.useVBO then GLEvent.drawElementsCall
                  else GLEvent.drawArraysCall ty vs.length,
                  GLEvent.applyTextureCall RenderStates.default]) := by
  have hfb : fboTexture st.texture = true := by rw [htex]; exact hfbo
  constructor
  · rw [RenderTarget.draw, if_neg hv, if_pos hact]
    simp only [fboStep_snd, hfb, if_true]
    exact raster_tail_shape _ _ st vs ty _
  · intro sh hsh
    rw [RenderTarget.drawAdvanced, if_neg hv, hsh]
    refine ⟨_, _, rfl, ?_⟩
    simp only [fboStep_snd, hfb, if_true]
    exact raster_tail_shape _ _ st vs ty _

/-- Witness for C8 with an FBO-attached texture on the static-buffer path. -/
theorem draw_fbo_unbind_after_raster_witness :
    (∃ pre, (RenderTarget.draw envW rtW cacheW [vtxW] PrimitiveType.TrianglesStrip
          { RenderStates.default with texture := some texFboW, useVBO := true }).2 =
        pre ++ [if ({ RenderStates.default with
                      texture := some texFboW, useVBO := true } : RenderStates).useVBO
                then GLEvent.drawElementsCall
                else GLEvent.drawArraysCall PrimitiveType.TrianglesStrip [vtxW].length,
                GLEvent.applyTextureCall RenderStates.default]) ∧
    (∀ sh : Shader, ({ RenderStates.default with
          texture := some texFboW, useVBO := true } : RenderStates).shader = some sh →
      ∃ c' evs, RenderTarget.drawAdvanced envW rtW cacheW [vtxW] PrimitiveType.TrianglesStrip
          { RenderStates.default with texture := some texFboW, useVBO := true } = some (c', evs) ∧
        ∃ pre, evs =
          pre ++ [if ({ RenderStates.default with
                        texture := some texFboW, useVBO := true } : RenderStates).useVBO
                  then GLEvent.drawElementsCall
                  else GLEvent.drawArraysCall PrimitiveType.TrianglesStrip [vtxW].length,
                  GLEvent.applyTextureCall RenderStates.default]) :=
  draw_fbo_unbind_after_raster envW rtW cacheW [vtxW] PrimitiveType.TrianglesStrip
    { RenderStates.default with texture := some texFboW, useVBO := true } rfl (by simp)
    texFboW rfl rfl

/-! ## C9: sprite draw without texture -/

/-- C9: `Sprite::draw` and `Sprite::drawAdvanced` are complete no-ops when
the sprite has no texture: nothing reaches the render target, no GPU call
is issued and the shared state cache is unchanged (the sprite itself is
taken by value and trivially unmodified). -/
theorem sprite_draw_noop_without_texture (s : Sprite) (env : Env) (rt : RenderTarget)
    (cache : StatesCache) (states : RenderStates) (h : s.texture = none) :
    s.draw env rt cache states = (cache, []) ∧
    s.drawAdvanced env rt cache states = some (cache, []) := by
  constructor <;> simp [Sprite.draw, Sprite.drawAdvanced, h]

/-- Witness for C9 on the default-constructed sprite. -/
theorem sprite_draw_noop_without_texture_witness :
    Sprite.init.draw envW rtW cacheW RenderStates.default = (cacheW, []) ∧
    Sprite.init.drawAdvanced envW rtW cacheW RenderStates.default = some (cacheW, []) :=
  sprite_draw_noop_without_texture Sprite.init envW rtW cacheW RenderStates.default rfl

/-! ## C10: sprite tint color model -/

theorem updatePositions_verticesWhite (s : Sprite) (h : s.verticesWhite) :
    s.updatePositions.verticesWhite := by
  simp only [Sprite.updatePositions, Sprite.verticesWhite] at h ⊢
  exact h

theorem updateTexCoords_verticesWhite (s s' : Sprite) (h : s.verticesWhite)
    (hu : s.updateTexCoords = some s') : s'.verticesWhite := by
  rw [Sprite.updateTexCoords] at hu
  cases htex : s.texture with
  | none => rw [htex] at hu; exact Option.noConfusion hu
  | some tex =>
    rw [htex] at hu
    simp only [Option.some.injEq] at hu
    subst hu
    simp only [Sprite.verticesWhite] at h ⊢
    exact h

theorem setTextureRect_verticesWhite (s : Sprite) (r : IntRect) (s' : Sprite)
    (h : s.verticesWhite) (hu : s.setTextureRect r = some s') : s'.verticesWhite := by
  rw [Sprite.setTextureRect] at hu
  split at hu
  · exact updateTexCoords_verticesWhite _ _
      (updatePositions_verticesWhite { s with textureRect := r } h) hu
  · cases hu
    exact h

theorem setTexture_verticesWhite (s : Sprite) (t : Texture) (b : Bool) (s' : Sprite)
    (h : s.verticesWhite) (hu : s.setTexture t b = some s') : s'.verticesWhite := by
  simp only [Sprite.setTexture] at hu
  split at hu
  · exact setTextureRect_verticesWhite { s with texture := some t } _ _ h hu
  · cases hu
    exact h

theorem setColor_verticesWhite (s : Sprite) (c : Color) : (s.setColor c).verticesWhite :=
  ⟨rfl, rfl, rfl, rfl⟩

theorem applyOp_verticesWhite (s : Sprite) (op : SpriteOp) (s' : Sprite)
    (h : s.verticesWhite) (hu : s.applyOp op = some s') : s'.verticesWhite := by
  cases op with
  | setColor c => cases hu; exact setColor_verticesWhite s c
  | setTexture t b => exact setTexture_verticesWhite s t b s' h hu
  | setTextureRect r => exact setTextureRect_verticesWhite s r s' h hu

theorem applyOps_verticesWhite (ops : List SpriteOp) :
    ∀ s s' : Sprite, s.verticesWhite → s.applyOps ops = some s' → s'.verticesWhite := by
  induction ops with
  | nil =>
    intro s s' h hu
    cases hu
    exact h
  | cons op ops ih =>
    intro s s' h hu
    simp only [Sprite.applyOps, Option.bind_eq_some] at hu
    obtain ⟨s1, h1, h2⟩ := hu
    exact ih s1 s' (applyOp_verticesWhite s op s1 h h1) h2

/-- C10: `getColor` returns exactly the color stored by `setColor`, while
the sprite's four vertex colors remain opaque white after any sequence of
`setColor` / `setTexture` / `setTextureRect` calls on a default-constructed
sprite — the tint lives only in the render-state descriptor and is never
baked into the vertices. -/
theorem sprite_color_model (c : Color) (s : Sprite) (ops : List SpriteOp) (s' : Sprite)
    (h : Sprite.init.applyOps ops = some s') :
    Sprite.getColor (Sprite.setColor s c) = c ∧ s'.verticesWhite :=
  ⟨rfl, applyOps_verticesWhite ops Sprite.init s' ⟨rfl, rfl, rfl, rfl⟩ h⟩

/-- Witness for C10: a concrete `setColor` round trip and white vertices
after applying `setColor`. -/
theorem sprite_color_model_witness :
    Sprite.getColor (Sprite.setColor Sprite.init ⟨10, 20, 30, 40⟩) = ⟨10, 20, 30, 40⟩ ∧
    (Sprite.init.setColor ⟨10, 20, 30, 40⟩).verticesWhite :=
  sprite_color_model ⟨10, 20, 30, 40⟩ Sprite.init [SpriteOp.setColor ⟨10, 20, 30, 40⟩]
    (Sprite.init.setColor ⟨10, 20, 30, 40⟩) rfl

end SFML
